import Mathlib

/-!
# Verification of the labphew Digilent WaveForms controller and monitor view

Shallow embedding of `labphew/controller/digilent/waveforms.py` and
`labphew/view/monitor_view.py`.  Wall-clock times and voltages are modelled
as exact rationals; the external DWF driver is modelled by the state fields
it stores on behalf of the controller (analog-in buffer size, frequency,
range, the analog-out offsets) together with explicit traces of device
observations (poll results with timestamps, per-channel sample buffers).

The Python module has a module-level global `daq` (bound only in the
`__main__` block); `read_analog` and the polling loop of
`wait_for_ai_acquisition` refer to `daq.ai` rather than `self.ai`, so the
embedding of `read_analog` takes both the receiver (`self`) and the object
the global `daq` is bound to.
-/

set_option autoImplicit false

namespace Waveforms

/-- State of one `DfwController` instance together with the driver state it
configures.  `last_ao0`, `last_ao1`, `time_stabilized`,
`basic_analog_return_std` are the Python attributes `_last_ao0`, `_last_ao1`,
`_time_stabilized`, `_basic_analog_return_std`.  `ai_bufferSize`,
`ai_frequency`, `ai_range` model the driver values set via
`ai.bufferSizeSet` / `ai.frequencySet` / `ai.channelRangeSet` and read back
via `ai.bufferSizeGet` / `ai.frequencyGet`.  `ao_offset0` / `ao_offset1`
model the carrier node offsets set by `ao.nodeOffsetSet`.  `ai_started`
records whether acquisition was started on this object's analog-in
(`ai.configure(0, 1)`), and `data0` / `data1` are the sample buffers the
device attached to this object would deliver via `ai.statusData`. -/
structure DfwState where
  last_ao0 : ℚ
  last_ao1 : ℚ
  time_stabilized : ℚ
  basic_analog_return_std : Bool
  ai_bufferSize : ℕ
  ai_frequency : ℚ
  ai_range : ℚ
  ao_offset0 : ℚ
  ao_offset1 : ℚ
  ai_started : Bool
  data0 : List ℚ
  data1 : List ℚ
  deriving DecidableEq, Repr

/-- `preset_basic_analog(self, n=84, freq=10000, range=50.0, return_std=False)`
(waveforms.py lines 60-85).  It resets analog out to DC, sets the analog-in
buffer size, frequency and range, and applies the configuration.  Note that
the source accepts `return_std` but never assigns
`self._basic_analog_return_std` (the assignment of `self._read_timeout` on
line 84 is commented out as well), so the flag argument has no effect on the
state. -/
def preset_basic_analog (s : DfwState) (n : ℕ := 84) (freq : ℚ := 10000)
    (range : ℚ := 50) (return_std : Bool := false) : DfwState :=
  -- `return_std` is received and dropped, exactly as in the source.
  let _ := return_std
  { s with
    ao_offset0 := 0        -- ao.reset() returns outputs to the default state
    ao_offset1 := 0
    ai_started := false    -- ai.configure(1, 0): apply config, do not start
    ai_bufferSize := n     -- ai.bufferSizeSet(n)
    ai_frequency := freq   -- ai.frequencySet(freq)
    ai_range := range }    -- ai.channelRangeSet(-1, range)

/-- Controller state right after `DfwController.__init__` (lines 31-57):
`_basic_analog_return_std = False`, `_last_ao0 = _last_ao1 = 0`,
`_time_stabilized = time.time()`, then `preset_basic_analog()` with its
default arguments.  `t0` is the construction time and `d0`, `d1` the sample
buffers of the attached device. -/
def initState (t0 : ℚ) (d0 d1 : List ℚ) : DfwState :=
  preset_basic_analog
    { last_ao0 := 0
      last_ao1 := 0
      time_stabilized := t0
      basic_analog_return_std := false
      ai_bufferSize := 0
      ai_frequency := 1
      ai_range := 0
      ao_offset0 := 0
      ao_offset1 := 0
      ai_started := false
      data0 := d0
      data1 := d1 }

/-- `write_analog(self, volt, channel=-1)` (lines 98-118).  `now` models the
value of `time.time()` during the call.  The offset update on line 111
(`ao.nodeOffsetSet(channel, CARRIER, volt)`) hits channel 0 for selector 0
or -1 and channel 1 for selector 1 or -1.  The two timestamp blocks are
reproduced exactly as written in the source: BOTH guards test
`channel == 0 or channel == -1` (lines 113 and 116), so a call with
`channel = 1` updates neither `_last_ao1` nor `_time_stabilized`. -/
def write_analog (s : DfwState) (now : ℚ) (volt : ℚ) (channel : ℤ) : DfwState :=
  let s := { s with
    ao_offset0 := if channel = 0 ∨ channel = -1 then volt else s.ao_offset0
    ao_offset1 := if channel = 1 ∨ channel = -1 then volt else s.ao_offset1 }
  let s :=
    if channel = 0 ∨ channel = -1 then
      { s with
        time_stabilized :=
          max s.time_stabilized (now + 13/1000 + 5/1000 * |s.last_ao0 - volt|)
        last_ao0 := volt }
    else s
  if channel = 0 ∨ channel = -1 then
    { s with
      time_stabilized :=
        max s.time_stabilized (now + 13/1000 + 5/1000 * |s.last_ao1 - volt|)
      last_ao1 := volt }
  else s

/-- `wait_for_stabilization(self)` (lines 120-131).  `now` is `time.time()`
at entry.  Returns the pair (amount of time waited and returned, wall-clock
time at return); `time.sleep(wait)` advances the clock by `wait`. -/
def wait_for_stabilization (s : DfwState) (now : ℚ) : ℚ × ℚ :=
  let wait := s.time_stabilized - now
  if 0 < wait then (wait, now + wait) else (0, now)

/-- Timeout basis used by `wait_for_ai_acquisition` (line 167):
`1.9 + self.ai.bufferSizeGet() / self.ai.frequencyGet()`. -/
def read_timeout (s : DfwState) : ℚ :=
  19/10 + (s.ai_bufferSize : ℚ) / s.ai_frequency

/-- One iteration of the polling loop of `wait_for_ai_acquisition`:
the acquisition status the device reports (`done` iff
`daq.ai.status(True) == daq.ai.STATE.DONE`) and the value of `time.time()`
at that iteration. -/
structure Poll where
  done : Bool
  time : ℚ
  deriving DecidableEq, Repr

/-- The `while` loop of `wait_for_ai_acquisition` (lines 168-171) over a
trace of poll observations.  Result `some (r, e)` means the loop finished
with return value `r` (`some true` after a timeout, `none` when the device
reported done) having logged `e` errors; `none` means the trace was
exhausted with the loop still running (a non-terminating run). -/
def wfaa_loop (deadline : ℚ) : List Poll → Option (Option Bool × ℕ)
  | [] => none
  | p :: ps =>
    if p.done then some (none, 0)
    else if deadline < p.time then some (some true, 1)
    else wfaa_loop deadline ps

/-- `wait_for_ai_acquisition(self, start_timestamp=None)` (lines 154-171).
`callTime` is `time.time()` at entry (used when `start_timestamp is None`);
`polls` is the trace of device status observations. -/
def wait_for_ai_acquisition (s : DfwState) (start_timestamp : Option ℚ)
    (callTime : ℚ) (polls : List Poll) : Option (Option Bool × ℕ) :=
  let start := start_timestamp.getD callTime
  wfaa_loop (start + read_timeout s) polls

/-- `ai.statusData(ch, cnt)` on the device attached to `s`: the first `cnt`
samples of the requested channel buffer. -/
def statusData (s : DfwState) (ch : ℕ) (cnt : ℕ) : List ℚ :=
  (if ch = 0 then s.data0 else s.data1).take cnt

/-- `numpy` array mean over a sample list. -/
def mean (xs : List ℚ) : ℚ :=
  xs.sum / xs.length

/-- `tuple([None, None]) * (1 + self._basic_analog_return_std)` (line 144):
Python multiplies the two-element tuple by `1 + b` with `True` counting
as `1`. -/
def noneTuple (return_std : Bool) : List (Option ℚ) :=
  (List.replicate (1 + (if return_std then 1 else 0))
    [(none : Option ℚ), none]).flatten

/-- `read_analog(self)` (lines 133-151).  `stdFn` models `numpy`'s `std`
(whose value is irrational in general and does not influence any property
proved here); `self` is the receiver and `daq` the object the module-level
global `daq` is bound to — lines 142 and 145-147 of the source address
`daq.ai`, not `self.ai`.  Returns the final `(self, daq)` states and
`some (value, errorsLogged)`, or `none` for a non-terminating poll trace. -/
def read_analog (stdFn : List ℚ → ℚ) (self daq : DfwState) (callTime : ℚ)
    (polls : List Poll) :
    (DfwState × DfwState) × Option (List (Option ℚ) × ℕ) :=
  let daq' := { daq with ai_started := true }  -- line 142: daq.ai.configure(0, 1)
  match wait_for_ai_acquisition self none callTime polls with
  | none => ((self, daq'), none)
  | some (some _, e) =>
      ((self, daq'), some (noneTuple self.basic_analog_return_std, e))
  | some (none, e) =>
      let buf := daq'.ai_bufferSize            -- line 145: daq.ai.bufferSizeGet()
      let c0 := statusData daq' 0 buf          -- line 146: daq.ai.statusData(0, buf)
      let c1 := statusData daq' 1 buf          -- line 147: daq.ai.statusData(1, buf)
      ((self, daq'),
        some ((if self.basic_analog_return_std then
                 [some (mean c0), some (mean c1), some (stdFn c0), some (stdFn c1)]
               else
                 [some (mean c0), some (mean c1)]), e))

/-- One row of a device's configuration list (line 222): channel count and
buffer size for each of the four sub-interfaces. -/
structure ConfigRow where
  ai_ch : ℕ
  ai_buf : ℕ
  ao_ch : ℕ
  ao_buf : ℕ
  di_ch : ℕ
  di_buf : ℕ
  do_ch : ℕ
  do_buf : ℕ
  deriving DecidableEq, Repr

/-- The `configs` field of a device inventory entry: either the placeholder
string assigned when the device is already open (line 204) or the list of
configuration rows (line 222). -/
inductive Configs where
  | placeholder (msg : String)
  | table (rows : List ConfigRow)
  deriving DecidableEq, Repr

/-- A device inventory entry as built by `enumerate_devices` (lines 194-224):
identity strings, the optional `maxAIfreq` (absent for already-open
devices), and the configs field. -/
structure DevEntry where
  sn : String
  deviceName : String
  userName : String
  maxAIfreq : Option ℚ
  configs : Configs
  deriving DecidableEq, Repr

/-- Loop of `enumerate_devices` (lines 194-227) over the processing outcome
of each discovered device: `Except.ok d` means the loop body built entry `d`
and appended it (line 224); `Except.error ()` means an exception was raised
somewhere while processing that device.  The surrounding `try`/`except`
catches any exception, logs one warning (line 227) and falls through to
`return devices`, so the accumulator built so far is returned and the entry
in progress is dropped.  The second component counts warnings logged by the
exception handler. -/
def enumDevGo : List (Except Unit DevEntry) → List DevEntry → List DevEntry × ℕ
  | [], acc => (acc, 0)
  | .ok d :: rest, acc => enumDevGo rest (acc ++ [d])
  | .error _ :: _, acc => (acc, 1)

/-- `enumerate_devices()` (lines 179-228), starting from the empty `devices`
list.  An exception raised before the loop (e.g. in `dwf.DwfEnumeration()`)
is the case where the first element of the outcome list is an error. -/
def enumerate_devices (devs : List (Except Unit DevEntry)) :
    List DevEntry × ℕ :=
  enumDevGo devs []

/-- Whether an entry's configs field is the already-open placeholder string
(`type(device['configs']) is str`, line 256). -/
def isPlaceholder (d : DevEntry) : Bool :=
  match d.configs with
  | .placeholder _ => true
  | .table _ => false

/-- Update of the `incomplete` flag for one printed entry (lines 256-259):
on a placeholder entry, `incomplete = True` is executed only when the flag
`is not None`; table entries leave it untouched. -/
def incStep (inc : Option Bool) (d : DevEntry) : Option Bool :=
  if isPlaceholder d then
    match inc with
    | none => none
    | some _ => some true
  else inc

/-- `print_device_list(devices_list=None)` (lines 235-270), tracking the
`incomplete` flag: it starts as `False` (line 243), is replaced by `None`
when the caller passed no list so the module-level cached list is used
(lines 244-247), is updated per entry by `incStep`, and the trailing notice
is printed iff the final value is truthy (line 268).  Returns whether the
notice was printed.  `None` ↦ `Option.none`, `False` ↦ `some false`,
`True` ↦ `some true`. -/
def print_device_list (cached : List DevEntry)
    (devices_list : Option (List DevEntry)) : Bool :=
  let incomplete0 : Option Bool :=
    match devices_list with
    | none => none
    | some _ => some false
  let lst := devices_list.getD cached
  let incomplete := lst.foldl incStep incomplete0
  incomplete = some true

end Waveforms

namespace MonitorView

/-- Observable state of `MonitorWindow` relevant to start/stop: the
`running_monitor` flag, the number of live worker threads, and whether the
update timer is active (`QTimer` is a single object, so it is either
running or not). -/
structure MonitorState where
  running_monitor : Bool
  workers : ℕ
  timer_active : Bool
  deriving DecidableEq, Repr

/-- State after `MonitorWindow.__init__` (monitor_view.py lines 42-44): the
timer exists but is not started and `running_monitor = False`; no worker
thread has been created. -/
def monitorInit : MonitorState :=
  { running_monitor := false, workers := 0, timer_active := false }

/-- `start_monitor(self)` (lines 66-80): if already running, print and
return with nothing changed; otherwise set the flag, create and start a new
`WorkThread`, and start the update timer. -/
def start_monitor (s : MonitorState) : MonitorState :=
  if s.running_monitor then s
  else
    { running_monitor := true
      workers := s.workers + 1
      timer_active := true }

/-- `stop_monitor(self)` (lines 82-92): if not running, print and return
with nothing changed; otherwise stop the timer, terminate the worker thread
and clear the flag. -/
def stop_monitor (s : MonitorState) : MonitorState :=
  if s.running_monitor then
    { running_monitor := false
      workers := s.workers - 1
      timer_active := false }
  else s

/-- A user action on the monitor window: clicking start or stop. -/
inductive MonOp where
  | start
  | stop
  deriving DecidableEq, Repr

/-- Apply one user action. -/
def monStep (s : MonitorState) : MonOp → MonitorState
  | .start => start_monitor s
  | .stop => stop_monitor s

/-- State reached from the freshly constructed window after a sequence of
start/stop clicks. -/
def monRun (ops : List MonOp) : MonitorState :=
  ops.foldl monStep monitorInit

/-- Reply to the `QMessageBox.question` confirmation dialog. -/
inductive Reply where
  | yes
  | no
  deriving DecidableEq, Repr

/-- A Qt close event: whether it has been accepted. -/
structure CloseEvent where
  accepted : Bool
  deriving DecidableEq, Repr

/-- `closeEvent(self, event)` (lines 106-110): the dialog is shown and its
reply stored in `reply`, but the reply is never inspected; `event.accept()`
runs unconditionally. -/
def closeEvent (reply : Reply) (event : CloseEvent) : CloseEvent :=
  let _ := reply
  { event with accepted := true }

end MonitorView

namespace Waveforms

/-- Helper: the polling loop times out (logging one error) when no poll
reports done and some poll's clock value exceeds the deadline. -/
theorem wfaa_loop_timeout (deadline : ℚ) (polls : List Poll)
    (hnd : ∀ p ∈ polls, p.done = false)
    (hex : ∃ p ∈ polls, deadline < p.time) :
    wfaa_loop deadline polls = some (some true, 1) := by
  induction polls with
  | nil => simp at hex
  | cons hd tl ih =>
    have hhd : hd.done = false := hnd hd (List.mem_cons_self hd tl)
    by_cases ht : deadline < hd.time
    · simp [wfaa_loop, hhd, ht]
    · have hex' : ∃ p ∈ tl, deadline < p.time := by
        rcases hex with ⟨p, hp, hlt⟩
        rcases List.mem_cons.mp hp with h | h
        · exact absurd (h ▸ hlt) ht
        · exact ⟨p, h, hlt⟩
      simpa [wfaa_loop, hhd, ht] using
        ih (fun p hp => hnd p (List.mem_cons_of_mem hd hp)) hex'

/-- Helper: the polling loop returns the no-timeout value when some poll
reports done and every not-done poll stays within the deadline. -/
theorem wfaa_loop_done (deadline : ℚ) (polls : List Poll)
    (hex : ∃ p ∈ polls, p.done = true)
    (hb : ∀ p ∈ polls, p.done = false → p.time ≤ deadline) :
    wfaa_loop deadline polls = some (none, 0) := by
  induction polls with
  | nil => simp at hex
  | cons hd tl ih =>
    by_cases hhd : hd.done
    · simp [wfaa_loop, hhd]
    · have hhd' : hd.done = false := by simpa using hhd
      have htime : ¬ deadline < hd.time :=
        not_lt.mpr (hb hd (List.mem_cons_self hd tl) hhd')
      have hex' : ∃ p ∈ tl, p.done = true := by
        rcases hex with ⟨p, hp, hdone⟩
        rcases List.mem_cons.mp hp with h | h
        · exact absurd (h ▸ hdone) hhd
        · exact ⟨p, h, hdone⟩
      simpa [wfaa_loop, hhd', htime] using
        ih hex' (fun p hp => hb p (List.mem_cons_of_mem hd hp))

/-- C5: `wait_for_ai_acquisition` defaults its start timestamp to the call
time, uses the timeout `1.9 + bufferSize/frequency` measured from the start
timestamp, returns `True` (after logging one error) when the elapsed time
exceeds that timeout while the device is not done, returns `None` when the
device reports done, and with `n = 84`, `f = 10000` the timeout is exactly
`1.9084` seconds. -/
theorem wait_for_ai_acquisition_spec (s : DfwState) (t ct : ℚ)
    (polls : List Poll) :
    wait_for_ai_acquisition s none ct polls
        = wait_for_ai_acquisition s (some ct) ct polls
    ∧ ((∀ p ∈ polls, p.done = false) →
        (∃ p ∈ polls, t + read_timeout s < p.time) →
        wait_for_ai_acquisition s (some t) ct polls = some (some true, 1))
    ∧ ((∃ p ∈ polls, p.done = true) →
        (∀ p ∈ polls, p.done = false → p.time ≤ t + read_timeout s) →
        wait_for_ai_acquisition s (some t) ct polls = some (none, 0))
    ∧ (s.ai_bufferSize = 84 → s.ai_frequency = 10000 →
        read_timeout s = 19084/10000) := by
  refine ⟨rfl, fun hnd hex => wfaa_loop_timeout _ _ hnd hex,
    fun hex hb => wfaa_loop_done _ _ hex hb, fun hn hf => ?_⟩
  rw [read_timeout, hn, hf]
  norm_num

/-- Witness for C5 at a concrete configuration and poll trace. -/
theorem wait_for_ai_acquisition_spec_witness :
    wait_for_ai_acquisition (initState 0 [] []) (some 0) 0 [⟨false, 100⟩]
        = some (some true, 1)
    ∧ read_timeout (initState 0 [] []) = 19084/10000 := by
  refine ⟨(wait_for_ai_acquisition_spec (initState 0 [] []) 0 0
      [⟨false, 100⟩]).2.1 ?_ ?_,
    (wait_for_ai_acquisition_spec (initState 0 [] []) 0 0 []).2.2.2 rfl rfl⟩
  · intro p hp
    rcases List.mem_singleton.mp hp with rfl
    rfl
  · refine ⟨⟨false, 100⟩, List.mem_singleton.mpr rfl, ?_⟩
    have h : read_timeout (initState 0 [] []) = 19084/10000 :=
      (wait_for_ai_acquisition_spec (initState 0 [] []) 0 0 []).2.2.2 rfl rfl
    rw [h]
    norm_num

end Waveforms

namespace Waveforms

/-- C3: when the device never reports done before the timeout, `read_analog`
returns `tuple([None, None]) * (1 + return_std)` — `(None, None)` with the
flag unset and `(None, None, None, None)` with it set — logs exactly one
error, and produces a value rather than raising. -/
theorem read_analog_timeout_all_none (stdFn : List ℚ → ℚ)
    (self daq : DfwState) (ct : ℚ) (polls : List Poll)
    (hnd : ∀ p ∈ polls, p.done = false)
    (hex : ∃ p ∈ polls, ct + read_timeout self < p.time) :
    (read_analog stdFn self daq ct polls).2
        = some (noneTuple self.basic_analog_return_std, 1)
    ∧ noneTuple false = [none, none]
    ∧ noneTuple true = [none, none, none, none] := by
  have hwait : wait_for_ai_acquisition self none ct polls
      = some (some true, 1) := wfaa_loop_timeout _ _ hnd hex
  refine ⟨?_, rfl, rfl⟩
  simp [read_analog, hwait]

/-- Witness for C3 on a concrete never-done poll trace. -/
theorem read_analog_timeout_all_none_witness :
    (read_analog (fun _ => 0) (initState 0 [] []) (initState 0 [] [])
        0 [⟨false, 100⟩]).2
      = some (noneTuple (initState 0 [] []).basic_analog_return_std, 1) := by
  refine (read_analog_timeout_all_none (fun _ => 0) (initState 0 [] [])
    (initState 0 [] []) 0 [⟨false, 100⟩] ?_ ?_).1
  · intro p hp
    rcases List.mem_singleton.mp hp with rfl
    rfl
  · refine ⟨⟨false, 100⟩, List.mem_singleton.mpr rfl, ?_⟩
    have h : read_timeout (initState 0 [] []) = 19084/10000 := by
      rw [read_timeout]
      norm_num [initState, preset_basic_analog]
    rw [h]
    norm_num

/-- C6: `wait_for_stabilization` returns a non-negative amount; after it
returns the stored stabilized-at timestamp is at most the current time;
when the timestamp is in the future it waits exactly the remaining
duration, otherwise it returns zero without advancing the clock. -/
theorem wait_for_stabilization_spec (s : DfwState) (now : ℚ) :
    0 ≤ (wait_for_stabilization s now).1
    ∧ s.time_stabilized ≤ (wait_for_stabilization s now).2
    ∧ (now < s.time_stabilized →
        wait_for_stabilization s now
          = (s.time_stabilized - now, s.time_stabilized))
    ∧ (s.time_stabilized ≤ now →
        wait_for_stabilization s now = (0, now)) := by
  simp only [wait_for_stabilization]
  split_ifs with h
  · have hs : now + (s.time_stabilized - now) = s.time_stabilized := by ring
    refine ⟨le_of_lt h, ?_, fun _ => by rw [hs], fun hle => absurd h (by linarith)⟩
    rw [hs]
  · refine ⟨le_refl 0, by linarith, fun hlt => absurd hlt (by linarith), fun _ => rfl⟩

/-- Witness for C6 with the stabilized-at timestamp two seconds ahead. -/
theorem wait_for_stabilization_spec_witness :
    0 ≤ (wait_for_stabilization (initState 5 [] []) 3).1
    ∧ wait_for_stabilization (initState 5 [] []) 3
        = ((initState 5 [] []).time_stabilized - 3,
           (initState 5 [] []).time_stabilized) := by
  refine ⟨(wait_for_stabilization_spec (initState 5 [] []) 3).1,
    (wait_for_stabilization_spec (initState 5 [] []) 3).2.2.1 ?_⟩
  show (3 : ℚ) < 5
  norm_num

end Waveforms

namespace Waveforms

/-- C1 (divergence evidence): a write of `-0.7` volt to channel 1 on a
freshly constructed controller sets the channel-1 output offset but leaves
`_last_ao1` and `_time_stabilized` unchanged — it does not record the new
voltage and does not advance the stabilized-at timestamp, because the guard
on line 116 of waveforms.py tests `channel == 0` instead of `channel == 1`.
The value the claim requires for the timestamp differs from the value the
code leaves in place. -/
theorem write_analog_channel1_noop :
    write_analog (initState 100 [] []) 200 (-7/10) 1
        = { initState 100 [] [] with ao_offset1 := -7/10 }
    ∧ (write_analog (initState 100 [] []) 200 (-7/10) 1).last_ao1 = 0
    ∧ (-7/10 : ℚ) ≠ 0
    ∧ (write_analog (initState 100 [] []) 200 (-7/10) 1).time_stabilized = 100
    ∧ (100 : ℚ)
        ≠ max (initState 100 [] []).time_stabilized
            (200 + 13/1000 + 5/1000 * |(initState 100 [] []).last_ao1 - (-7/10)|) := by
  have habs : |(initState 100 [] []).last_ao1 - (-7/10)| = 7/10 := by
    have h0 : (initState 100 [] []).last_ao1 - (-7/10) = 7/10 := by
      show (0 : ℚ) - (-7/10) = 7/10
      norm_num
    rw [h0, abs_of_nonneg]
    norm_num
  have hts : (initState 100 [] []).time_stabilized = 100 := rfl
  refine ⟨rfl, rfl, by norm_num, rfl, ?_⟩
  rw [habs, hts]
  rw [max_eq_right (by norm_num)]
  norm_num

/-- C2 (divergence evidence): with the receiver attached to a device whose
buffers hold 1-volt samples and the module-global `daq` bound to a distinct
object whose buffers hold 3- and 4-volt samples, `read_analog` on the
receiver returns the global object's means (3 and 4, not 1), and it starts
acquisition on the global object's analog-in while the receiver's analog-in
stays unstarted. -/
theorem read_analog_reads_global_daq :
    (read_analog (fun _ => 0) (initState 0 [1, 1] [1, 1])
        (initState 0 [3, 3] [4, 4]) 0 [⟨true, 0⟩]).2
      = some ([some 3, some 4], 0)
    ∧ mean (statusData (initState 0 [1, 1] [1, 1]) 0
        (initState 0 [1, 1] [1, 1]).ai_bufferSize) = 1
    ∧ (3 : ℚ) ≠ 1
    ∧ ((read_analog (fun _ => 0) (initState 0 [1, 1] [1, 1])
        (initState 0 [3, 3] [4, 4]) 0 [⟨true, 0⟩]).1).2.ai_started = true
    ∧ ((read_analog (fun _ => 0) (initState 0 [1, 1] [1, 1])
        (initState 0 [3, 3] [4, 4]) 0 [⟨true, 0⟩]).1).1.ai_started = false := by
  refine ⟨?_, ?_, by norm_num, rfl, rfl⟩
  · show some ([some (mean [3, 3]), some (mean [4, 4])], 0)
        = some ([some 3, some 4], 0)
    rw [show mean [3, 3] = 3 by rw [mean]; norm_num,
        show mean [4, 4] = 4 by rw [mean]; norm_num]
  · show mean [1, 1] = 1
    rw [mean]
    norm_num

/-- C4 (divergence evidence): calling `preset_basic_analog` with
`return_std=True` leaves `_basic_analog_return_std` at its constructor
value `False` (the method never assigns it), so a subsequent successful
read returns only the two channel means — two values, not four. -/
theorem preset_basic_analog_drops_return_std :
    (preset_basic_analog (initState 0 [1, 1] [2, 2]) 84 10000 50
        true).basic_analog_return_std = false
    ∧ (read_analog (fun _ => 0)
        (preset_basic_analog (initState 0 [1, 1] [2, 2]) 84 10000 50 true)
        (preset_basic_analog (initState 0 [1, 1] [2, 2]) 84 10000 50 true)
        0 [⟨true, 0⟩]).2
      = some ([some 1, some 2], 0) := by
  refine ⟨rfl, ?_⟩
  show some ([some (mean [1, 1]), some (mean [2, 2])], 0)
      = some ([some 1, some 2], 0)
  rw [show mean [1, 1] = 1 by rw [mean]; norm_num,
      show mean [2, 2] = 2 by rw [mean]; norm_num]

end Waveforms

namespace Waveforms

/-- Helper: processing a prefix of successfully handled devices appends
their entries to the accumulator. -/
theorem enumDevGo_append_ok (pre : List DevEntry)
    (l : List (Except Unit DevEntry)) (acc : List DevEntry) :
    enumDevGo (pre.map Except.ok ++ l) acc = enumDevGo l (acc ++ pre) := by
  induction pre generalizing acc with
  | nil => simp
  | cons hd tl ih =>
    show enumDevGo (tl.map Except.ok ++ l) (acc ++ [hd]) = _
    rw [ih]
    simp

/-- C7: when an exception is raised while processing a device (after `pre`
devices were handled successfully), `enumerate_devices` catches it, logs
exactly one warning in the handler, does not re-raise, and returns exactly
the entries fully collected before the exception; without an exception it
returns every entry and the handler logs nothing. -/
theorem enumerate_devices_partial_on_exception (pre : List DevEntry)
    (post : List (Except Unit DevEntry)) :
    enumerate_devices (pre.map Except.ok ++ Except.error () :: post)
        = (pre, 1)
    ∧ enumerate_devices (pre.map Except.ok) = (pre, 0) := by
  constructor
  · rw [enumerate_devices, enumDevGo_append_ok]
    rfl
  · rw [enumerate_devices, show pre.map Except.ok = pre.map Except.ok ++ [] by simp,
      enumDevGo_append_ok]
    rfl

/-- Witness for C7: one collected device, then an exception. -/
theorem enumerate_devices_partial_on_exception_witness :
    enumerate_devices [Except.ok ⟨"SN1", "AD2", "user", none, Configs.table []⟩,
        Except.error ()]
      = ([⟨"SN1", "AD2", "user", none, Configs.table []⟩], 1) :=
  (enumerate_devices_partial_on_exception
    [⟨"SN1", "AD2", "user", none, Configs.table []⟩] []).1

/-- Helper: once the `incomplete` flag is `None` it stays `None` over the
whole printing loop. -/
theorem incStep_fold_none (l : List DevEntry) :
    l.foldl incStep none = none := by
  induction l with
  | nil => rfl
  | cons hd tl ih =>
    have h : incStep none hd = none := by
      rw [incStep]
      split <;> rfl
    show (tl.foldl incStep (incStep none hd)) = none
    rw [h, ih]

/-- Helper: starting from a Boolean flag, the printing loop ends with the
flag or-ed with "some entry is a placeholder". -/
theorem incStep_fold_some (l : List DevEntry) (b : Bool) :
    l.foldl incStep (some b) = some (b || l.any fun d => isPlaceholder d) := by
  induction l generalizing b with
  | nil => simp
  | cons hd tl ih =>
    show (tl.foldl incStep (incStep (some b) hd)) = _
    by_cases h : isPlaceholder hd
    · rw [show incStep (some b) hd = some true by rw [incStep]; simp [h], ih]
      simp [h]
    · rw [show incStep (some b) hd = some b by rw [incStep]; simp [h], ih]
      simp [h]

/-- C8: the trailing incomplete-list notice is printed iff the caller
passed a device list explicitly and at least one entry's configs field is
the already-open placeholder string; with the cached default list the
notice is never printed, placeholders or not. -/
theorem print_device_list_notice_iff (cached lst : List DevEntry) :
    (print_device_list cached (some lst) = true
        ↔ ∃ d ∈ lst, isPlaceholder d = true)
    ∧ print_device_list cached none = false := by
  constructor
  · rw [print_device_list]
    simp only [Option.getD_some, incStep_fold_some, Bool.false_or]
    rw [decide_eq_true_eq, Option.some_inj, List.any_eq_true]
  · rw [print_device_list]
    simp only [Option.getD_none, incStep_fold_none]
    simp

/-- Witness for C8: a placeholder entry triggers the notice when the list
is passed explicitly and not when the cached list is used. -/
theorem print_device_list_notice_iff_witness :
    print_device_list []
        (some [⟨"SN1", "AD2", "user", none,
          Configs.placeholder "Couldn't connect to device for further information"⟩])
      = true
    ∧ print_device_list
        [⟨"SN1", "AD2", "user", none,
          Configs.placeholder "Couldn't connect to device for further information"⟩]
        none
      = false := by
  constructor
  · exact (print_device_list_notice_iff [] _).1.mpr
      ⟨_, List.mem_singleton.mpr rfl, rfl⟩
  · exact (print_device_list_notice_iff _ []).2

end Waveforms

namespace MonitorView

/-- Helper: one start/stop click preserves the invariant that exactly one
worker thread is live and the timer is active iff the monitor is running. -/
theorem monStep_inv (s : MonitorState)
    (h1 : s.workers = if s.running_monitor then 1 else 0)
    (h2 : s.timer_active = s.running_monitor) (op : MonOp) :
    (monStep s op).workers
        = (if (monStep s op).running_monitor then 1 else 0)
    ∧ (monStep s op).timer_active = (monStep s op).running_monitor := by
  cases op <;> cases hr : s.running_monitor <;>
    rw [hr] at h1 h2 <;>
    simp [monStep, start_monitor, stop_monitor, hr, h1, h2]

/-- Helper: the invariant holds in every state reachable from the freshly
constructed window. -/
theorem monRun_inv (ops : List MonOp) :
    (monRun ops).workers = (if (monRun ops).running_monitor then 1 else 0)
    ∧ (monRun ops).timer_active = (monRun ops).running_monitor := by
  suffices h : ∀ (l : List MonOp) (s : MonitorState),
      s.workers = (if s.running_monitor then 1 else 0) →
      s.timer_active = s.running_monitor →
      (l.foldl monStep s).workers
          = (if (l.foldl monStep s).running_monitor then 1 else 0)
      ∧ (l.foldl monStep s).timer_active = (l.foldl monStep s).running_monitor by
    exact h ops monitorInit rfl rfl
  intro l
  induction l with
  | nil => exact fun s h1 h2 => ⟨h1, h2⟩
  | cons hd tl ih =>
    intro s h1 h2
    obtain ⟨h1', h2'⟩ := monStep_inv s h1 h2 hd
    exact ih (monStep s hd) h1' h2'

/-- C9: in every state reachable by start/stop clicks at most one worker
thread is live, the timer is active exactly when the monitor is running,
clicking start while running changes nothing, and clicking stop while not
running changes nothing. -/
theorem monitor_single_worker_and_timer (ops : List MonOp) :
    (monRun ops).workers ≤ 1
    ∧ (monRun ops).timer_active = (monRun ops).running_monitor
    ∧ ((monRun ops).running_monitor = true →
        start_monitor (monRun ops) = monRun ops)
    ∧ ((monRun ops).running_monitor = false →
        stop_monitor (monRun ops) = monRun ops) := by
  obtain ⟨h1, h2⟩ := monRun_inv ops
  refine ⟨?_, h2, fun hr => ?_, fun hr => ?_⟩
  · rw [h1]
    split <;> omega
  · rw [start_monitor, if_pos hr]
  · rw [stop_monitor, if_neg (by rw [hr]; exact Bool.false_ne_true)]

/-- Witness for C9 after a single start click. -/
theorem monitor_single_worker_and_timer_witness :
    (monRun [MonOp.start]).workers ≤ 1
    ∧ start_monitor (monRun [MonOp.start]) = monRun [MonOp.start] :=
  ⟨(monitor_single_worker_and_timer [MonOp.start]).1,
   (monitor_single_worker_and_timer [MonOp.start]).2.2.1 rfl⟩

/-- C10: the close handler accepts the close event whatever the reply to
the confirmation dialog is; answering No produces exactly the same outcome
as answering Yes. -/
theorem closeEvent_always_accepts (reply : Reply) (e : CloseEvent) :
    (closeEvent reply e).accepted = true
    ∧ closeEvent Reply.no e = closeEvent Reply.yes e := by
  exact ⟨rfl, rfl⟩

/-- Witness for C10: answering No to the dialog still accepts the event. -/
theorem closeEvent_always_accepts_witness :
    (closeEvent Reply.no { accepted := false }).accepted = true :=
  (closeEvent_always_accepts Reply.no { accepted := false }).1

end MonitorView
